import Mathlib

/-!
Shallow embedding of the approval-gate Forge app.

The backend resolvers (`getIssueData`, `approveIssue`, `resetApprovalOnReady`
in `src/unnamed/part_003` and `src/Screenshots/backend.js`) are modelled as
pure functions over the data they read: the resolved issue, the current user,
the vote-ledger issue property, and the list of available transitions.
The estimation variant (`enterEstimate` in `src/src/resolvers/index.js`) and
the client synchronization controller (`fetchGate` / `onApprove` in
`src/Screenshots/frontendFinv1.jsx`, second variant) are modelled likewise.
JavaScript truthiness on strings (empty string is falsy) is made explicit
through `jsOrString` / `jsTruthyString`.
-/

namespace ApprovalGate

/-- `statusName || 'Unknown'`-style defaulting: JS `||` replaces both `null`
(`none`) and the falsy empty string by the default. -/
def jsOrString (o : Option String) (d : String) : String :=
  match o with
  | none => d
  | some s => if s = "" then d else s

/-- `.filter(Boolean)` on a possibly-missing string: keeps only a present,
non-empty value. -/
def jsTruthyString (o : Option String) : Option String :=
  match o with
  | none => none
  | some s => if s = "" then none else some s

/-- A Jira user as read from `/rest/api/3/myself` or a multi-user field. -/
structure User where
  accountId : String
  displayName : String
deriving DecidableEq, Repr

/-- The fields of an issue the resolvers read. `statusName` is
`issue?.fields?.status?.name` (`none` when absent); `approvers` is the
approvers custom field (`none` when the field is not an array);
`approvalDate` / `approvalGivenBy` are the two approval annotation fields. -/
structure Issue where
  id : String
  statusName : Option String
  approvers : Option (List User)
  approvalDate : Option String
  approvalGivenBy : Option User
deriving DecidableEq, Repr

def REQUIRED_STATUS : String := "Ready for Review"
def TARGET_STATUS : String := "Approved"

/-- `issue?.fields?.status?.name || 'Unknown'`. -/
def statusNameOf (issue : Issue) : String :=
  jsOrString issue.statusName "Unknown"

/-- `Array.isArray(issue?.fields?.[APPROVER_CF]) ? issue.fields[APPROVER_CF] : []`. -/
def approversOf (issue : Issue) : List User :=
  issue.approvers.getD []

/-- `approvers.some((u) => u?.accountId === me.accountId)`. -/
def isApprover (approvers : List User) (meId : String) : Bool :=
  approvers.any (fun u => u.accountId == meId)

/-- The `canApprove` flag computed by `getIssueData`
(`src/unnamed/part_003:82`): status must be the required one, the approver
list must be non-empty, and the current user must be listed. -/
def canApproveOf (statusName : String) (approvers : List User) (meId : String) : Bool :=
  statusName == REQUIRED_STATUS && decide (approvers.length > 0) && isApprover approvers meId

/-- The participant allow-list guard of `enterEstimate`
(`src/src/resolvers/index.js:58-63`): the call is rejected exactly when the
list is non-empty and the actor is not on it. -/
def restrictionAllows (r : List String) (meId : String) : Bool :=
  !(decide (r.length > 0) && !(r.any (fun p => p == meId)))

/-- The spec's single `canAct` flag: `getIssueData`'s `canApprove` conjoined
with the optional allow-list guard of the estimation variant (`none` when no
restriction is configured). -/
def canAct (statusName : String) (approvers : List User) (meId : String)
    (R : Option (List String)) : Bool :=
  canApproveOf statusName approvers meId &&
    (match R with
     | none => true
     | some r => restrictionAllows r meId)

/-- The projection returned by `getIssueData`. -/
structure Projection where
  statusName : String
  approvers : List User
  approvedCount : Nat
  totalApprovers : Nat
  hasVoted : Bool
  canApprove : Bool
  approvalGivenBy : Option User
  approvalDate : Option String
deriving DecidableEq, Repr

/-- The pure core of the `getIssueData` resolver (`src/unnamed/part_003:67-94`),
given the resolved issue, the current user and the vote ledger it read. -/
def getIssueData (issue : Issue) (me : User) (votes : List String) : Projection :=
  let statusName := statusNameOf issue
  let approvers := approversOf issue
  { statusName := statusName
  , approvers := approvers
  , approvedCount := votes.length
  , totalApprovers := approvers.length
  , hasVoted := votes.contains me.accountId
  , canApprove := canApproveOf statusName approvers me.accountId
  , approvalGivenBy := issue.approvalGivenBy
  , approvalDate := issue.approvalDate }

end ApprovalGate

namespace ApprovalGate

lemma restrictionAllows_true_iff (r : List String) (meId : String) :
    restrictionAllows r meId = true ↔ (r = [] ∨ meId ∈ r) := by
  unfold restrictionAllows
  simp [List.any_eq_true, List.length_pos, or_iff_not_imp_left]

lemma canApproveOf_true_iff (s : String) (A : List User) (a : String) :
    canApproveOf s A a = true ↔ s = REQUIRED_STATUS ∧ A ≠ [] ∧ a ∈ A.map User.accountId := by
  unfold canApproveOf isApprover
  simp [List.any_eq_true, List.length_pos, List.mem_map, and_assoc, eq_comm (a := a)]

end ApprovalGate

/-- C1: for every status, approver set, actor and optional restriction set,
`canAct` is `true` iff the status equals `REQUIRED_STATUS`, the approver set
is non-empty, the actor is a member of it, and, whenever a restriction set is
present and non-empty, the actor is also a member of the restriction set. -/
theorem ApprovalGate.canAct_true_iff (statusName : String) (approvers : List ApprovalGate.User)
    (meId : String) (R : Option (List String)) :
    ApprovalGate.canAct statusName approvers meId R = true ↔
      statusName = ApprovalGate.REQUIRED_STATUS ∧ approvers ≠ [] ∧
        meId ∈ approvers.map ApprovalGate.User.accountId ∧
        (∀ r, R = some r → r ≠ [] → meId ∈ r) := by
  unfold ApprovalGate.canAct
  cases R with
  | none =>
    simp only [Bool.and_true, canApproveOf_true_iff, and_assoc]
    constructor
    · rintro ⟨hs, hlen, hmem⟩
      exact ⟨hs, hlen, hmem, by intro r h; cases h⟩
    · rintro ⟨hs, hlen, hmem, -⟩
      exact ⟨hs, hlen, hmem⟩
  | some r =>
    simp only [Bool.and_eq_true, canApproveOf_true_iff, restrictionAllows_true_iff, and_assoc]
    refine and_congr_right fun _ => and_congr_right fun _ => and_congr_right fun _ => ?_
    constructor
    · rintro (h0 | hmem)
      · intro r' hr' hne; cases hr'; exact absurd h0 hne
      · intro r' hr' _; cases hr'; exact hmem
    · intro h
      by_cases h0 : r = []
      · exact Or.inl h0
      · exact Or.inr (h r rfl h0)

namespace ApprovalGate

/-- `approverIds` as computed by the panel in `src/src/frontend/index.jsx:198`:
`approvers.map(a => a?.accountId).filter(Boolean)`. -/
def approverIdsOf (approvers : List User) : List String :=
  (approvers.map User.accountId).filter (fun s => s != "")

/-- `approvedCount` as computed by the panel in
`src/src/frontend/index.jsx:200-202`: the ledger entries that are also
approver ids. -/
def scopedApprovedCount (approvedBy : List String) (approvers : List User) : Nat :=
  (approvedBy.filter (fun id => (approverIdsOf approvers).contains id)).length

end ApprovalGate

/-- C2: for every duplicate-free vote ledger and every approver list, the
approver-scoped `approvedCount` of the view equals the cardinality of the
intersection of the ledger with the approver id set. -/
theorem ApprovalGate.scopedApprovedCount_eq_card_inter (approvedBy : List String)
    (approvers : List ApprovalGate.User) (h : approvedBy.Nodup) :
    ApprovalGate.scopedApprovedCount approvedBy approvers =
      (approvedBy.toFinset ∩ (ApprovalGate.approverIdsOf approvers).toFinset).card := by
  unfold ApprovalGate.scopedApprovedCount
  rw [← List.toFinset_card_of_nodup (h.filter _), List.toFinset_filter]
  rw [← Finset.filter_mem_eq_inter]
  apply congrArg
  apply Finset.filter_congr
  intro x _
  simp [List.elem_iff]

/-- Witness for C2 at a concrete ledger and approver list. -/
theorem ApprovalGate.scopedApprovedCount_eq_card_inter_witness :
    (["alice", "carol"] : List String).Nodup ∧
      ApprovalGate.scopedApprovedCount ["alice", "carol"]
          [⟨"alice", "Alice"⟩, ⟨"bob", "Bob"⟩] =
        ((["alice", "carol"] : List String).toFinset ∩
          (ApprovalGate.approverIdsOf [⟨"alice", "Alice"⟩, ⟨"bob", "Bob"⟩]).toFinset).card :=
  ⟨by decide, ApprovalGate.scopedApprovedCount_eq_card_inter _ _ (by decide)⟩

namespace ApprovalGate

/-- A workflow transition as returned by the transitions endpoint: its `id`
and the destination status name `t?.to?.name` (`none` when absent). -/
structure Transition where
  id : String
  toName : Option String
deriving DecidableEq, Repr

/-- `transitions.map(t => t?.to?.name).filter(Boolean)`
(`src/unnamed/part_003:118`): the reachable destination status names. -/
def availableTargets (transitions : List Transition) : List String :=
  (transitions.map Transition.toName).filterMap jsTruthyString

/-- `.toLowerCase()` character by character: Lean's `String.toLower` maps
`Char.toLower` over the characters, which is exactly this list. -/
def lowerStr (s : String) : List Char :=
  s.data.map Char.toLower

/-- `transitions.find(t => String(t?.to?.name || '').toLowerCase() ===
TARGET_STATUS.toLowerCase())` (`src/unnamed/part_003:119`). -/
def findTarget (transitions : List Transition) : Option Transition :=
  transitions.find? (fun t => lowerStr (jsOrString t.toName "") == lowerStr TARGET_STATUS)

/-- The classified errors `approveIssue` can throw. -/
inductive ApproveError where
  | notFound (label : String)
  | invalidState (required current : String)
  | notAuthorized
  | noTransition (target current : String) (available : List String)
deriving DecidableEq, Repr

/-- The write effects `approveIssue` performs, in order. -/
inductive Effect where
  | executeTransition (transitionId : String)
  | writeApprovalFields (dateIso : String) (givenById : String)
  | putVotes (votes : List String)
deriving DecidableEq, Repr

/-- The successful result of `approveIssue`: the confirmation message and the
ledger content after the call. -/
structure ApproveOutcome where
  message : String
  votes : List String
deriving DecidableEq, Repr

/-- The vote-recording step of `approveIssue` (`src/unnamed/part_003:138-142`):
the actor is appended only when not already present. -/
def recordVote (votes : List String) (meId : String) : List String :=
  if votes.contains meId then votes else votes ++ [meId]

/-- The pure core of the `approveIssue` resolver (`src/unnamed/part_003:97-145`).
`lookup` is the result of resolving the item reference (`none` when the issue
fetch fails), `transitions` the Provider-exposed transitions, `priorVotes`
the ledger read, `nowIso` the timestamp written to the approval-date field.
Returns the classified error or the confirmation outcome, paired with the
list of write effects performed. -/
def approveIssue (lookup : Option Issue) (me : User) (transitions : List Transition)
    (priorVotes : List String) (nowIso : String) :
    Except ApproveError ApproveOutcome × List Effect :=
  match lookup with
  | none => (.error (.notFound "Issue fetch failed"), [])
  | some issue =>
    let statusName := statusNameOf issue
    let approvers := approversOf issue
    if statusName != REQUIRED_STATUS then
      (.error (.invalidState REQUIRED_STATUS statusName), [])
    else if approvers.length == 0 || !isApprover approvers me.accountId then
      (.error .notAuthorized, [])
    else
      match findTarget transitions with
      | none =>
        (.error (.noTransition TARGET_STATUS statusName (availableTargets transitions)), [])
      | some target =>
        let votes := recordVote priorVotes me.accountId
        (.ok { message := "Approved by " ++ me.displayName, votes := votes },
         [.executeTransition target.id, .writeApprovalFields nowIso me.accountId] ++
           (if priorVotes.contains me.accountId then [] else [.putVotes votes]))

end ApprovalGate

/-- C3: `approveIssue` checks its preconditions in a fixed order with the
first failure winning: an unresolvable item yields the not-found error before
anything else; otherwise a status different from `REQUIRED_STATUS` yields the
invalid-state error naming both the required and the current status,
regardless of authorization (so an unauthorized actor on a wrong-status item
receives the status error, not the authorization error); otherwise an empty
approver set or an actor not in the approver set yields the not-authorized
error. No write effect is performed in any of these cases. -/
theorem ApprovalGate.approveIssue_precondition_order (lookup : Option ApprovalGate.Issue)
    (me : ApprovalGate.User) (transitions : List ApprovalGate.Transition)
    (priorVotes : List String) (nowIso : String) :
    (lookup = none →
      ApprovalGate.approveIssue lookup me transitions priorVotes nowIso =
        (.error (.notFound "Issue fetch failed"), [])) ∧
    (∀ issue, lookup = some issue →
      ApprovalGate.statusNameOf issue ≠ ApprovalGate.REQUIRED_STATUS →
      ApprovalGate.approveIssue lookup me transitions priorVotes nowIso =
        (.error (.invalidState ApprovalGate.REQUIRED_STATUS
          (ApprovalGate.statusNameOf issue)), [])) ∧
    (∀ issue, lookup = some issue →
      ApprovalGate.statusNameOf issue = ApprovalGate.REQUIRED_STATUS →
      (ApprovalGate.approversOf issue = [] ∨
        ApprovalGate.isApprover (ApprovalGate.approversOf issue) me.accountId = false) →
      ApprovalGate.approveIssue lookup me transitions priorVotes nowIso =
        (.error .notAuthorized, [])) := by
  refine ⟨?_, ?_, ?_⟩
  · rintro rfl
    rfl
  · rintro issue rfl hstatus
    unfold ApprovalGate.approveIssue
    simp [bne_iff_ne, hstatus]
  · rintro issue rfl hstatus hauth
    unfold ApprovalGate.approveIssue
    rcases hauth with hnil | hfalse
    · simp [hstatus, hnil]
    · simp [hstatus, hfalse]

/-- Witness for C3: a wrong-status item with an unauthorized actor receives
the invalid-state error, and the other two precondition failures are
exercised at concrete inputs as well. -/
theorem ApprovalGate.approveIssue_precondition_order_witness :
    ApprovalGate.approveIssue
        (some ⟨"10001", some "In Progress", some [⟨"alice", "Alice"⟩], none, none⟩)
        ⟨"mallory", "Mallory"⟩ [] [] "2026-01-01T00:00:00Z" =
      (.error (.invalidState ApprovalGate.REQUIRED_STATUS "In Progress"), []) :=
  (ApprovalGate.approveIssue_precondition_order
      (some ⟨"10001", some "In Progress", some [⟨"alice", "Alice"⟩], none, none⟩)
      ⟨"mallory", "Mallory"⟩ [] [] "2026-01-01T00:00:00Z").2.1
    ⟨"10001", some "In Progress", some [⟨"alice", "Alice"⟩], none, none⟩ rfl (by decide)

/-- C4: whenever the transition search succeeds it returns a transition whose
destination status name equals `TARGET_STATUS` under case-insensitive
comparison; when no such transition exists, `approveIssue` (on an item that
passed all preconditions) fails with the no-transition error carrying exactly
the reachable destination status names, and performs no write effect at all. -/
theorem ApprovalGate.approveIssue_no_transition (issue : ApprovalGate.Issue)
    (me : ApprovalGate.User) (transitions : List ApprovalGate.Transition)
    (priorVotes : List String) (nowIso : String)
    (hstatus : ApprovalGate.statusNameOf issue = ApprovalGate.REQUIRED_STATUS)
    (hne : ApprovalGate.approversOf issue ≠ [])
    (hmem : ApprovalGate.isApprover (ApprovalGate.approversOf issue) me.accountId = true) :
    (∀ t, ApprovalGate.findTarget transitions = some t →
      ApprovalGate.lowerStr (ApprovalGate.jsOrString t.toName "") =
        ApprovalGate.lowerStr ApprovalGate.TARGET_STATUS) ∧
    (ApprovalGate.findTarget transitions = none →
      ApprovalGate.approveIssue (some issue) me transitions priorVotes nowIso =
        (.error (.noTransition ApprovalGate.TARGET_STATUS ApprovalGate.REQUIRED_STATUS
          (ApprovalGate.availableTargets transitions)), [])) := by
  constructor
  · intro t ht
    have := List.find?_some ht
    exact beq_iff_eq.mp this
  · intro hnone
    unfold ApprovalGate.approveIssue
    simp [hstatus, hmem, hnone, List.length_eq_zero, hne]

/-- Witness for C4 at a concrete transition list that lacks an Approved
destination: the error enumerates the one reachable destination. -/
theorem ApprovalGate.approveIssue_no_transition_witness :
    ApprovalGate.approveIssue
        (some ⟨"10002", some "Ready for Review", some [⟨"alice", "Alice"⟩], none, none⟩)
        ⟨"alice", "Alice"⟩ [⟨"11", some "Done"⟩, ⟨"21", none⟩] [] "2026-01-01T00:00:00Z" =
      (.error (.noTransition "Approved" "Ready for Review" ["Done"]), []) :=
  (ApprovalGate.approveIssue_no_transition
      ⟨"10002", some "Ready for Review", some [⟨"alice", "Alice"⟩], none, none⟩
      ⟨"alice", "Alice"⟩ [⟨"11", some "Done"⟩, ⟨"21", none⟩] [] "2026-01-01T00:00:00Z"
      rfl (by decide) (by decide)).2 (by decide)

namespace ApprovalGate

lemma contains_recordVote_self (votes : List String) (meId : String) :
    (recordVote votes meId).contains meId = true := by
  unfold recordVote
  split
  · assumption
  · simp

lemma recordVote_of_contains (votes : List String) (meId : String)
    (h : votes.contains meId = true) : recordVote votes meId = votes := by
  unfold recordVote
  rw [if_pos h]

lemma recordVote_idem (votes : List String) (meId : String) :
    recordVote (recordVote votes meId) meId = recordVote votes meId :=
  recordVote_of_contains _ _ (contains_recordVote_self votes meId)

lemma mem_recordVote_self (votes : List String) (meId : String) :
    meId ∈ recordVote votes meId := by
  have h := contains_recordVote_self votes meId
  simpa [List.elem_iff] using h

end ApprovalGate

/-- C5: vote recording is idempotent under set semantics: when a call to
`approveIssue` succeeds, a second call by the same actor against the same
item state with the ledger produced by the first call succeeds as well (a
duplicate vote is not an error), leaves the ledger identical and of the same
size, and performs no ledger write at all. -/
theorem ApprovalGate.approveIssue_duplicate_vote (lookup : Option ApprovalGate.Issue)
    (me : ApprovalGate.User) (transitions : List ApprovalGate.Transition)
    (priorVotes : List String) (nowIso : String)
    (o1 : ApprovalGate.ApproveOutcome) (e1 : List ApprovalGate.Effect)
    (h : ApprovalGate.approveIssue lookup me transitions priorVotes nowIso = (.ok o1, e1)) :
    ∃ o2 e2, ApprovalGate.approveIssue lookup me transitions o1.votes nowIso = (.ok o2, e2) ∧
      o2.votes = o1.votes ∧ o2.votes.length = o1.votes.length ∧
      ∀ v, ApprovalGate.Effect.putVotes v ∉ e2 := by
  match lookup with
  | none => simp [ApprovalGate.approveIssue] at h
  | some issue =>
    unfold ApprovalGate.approveIssue at h ⊢
    simp only at h ⊢
    by_cases hstatus :
        (ApprovalGate.statusNameOf issue != ApprovalGate.REQUIRED_STATUS) = true
    · rw [if_pos hstatus] at h
      simp at h
    · rw [if_neg hstatus] at h ⊢
      by_cases hauth : ((ApprovalGate.approversOf issue).length == 0 ||
          !ApprovalGate.isApprover (ApprovalGate.approversOf issue) me.accountId) = true
      · rw [if_pos hauth] at h
        simp at h
      · rw [if_neg hauth] at h ⊢
        cases hfind : ApprovalGate.findTarget transitions with
        | none =>
          rw [hfind] at h
          simp at h
        | some target =>
          rw [hfind] at h
          simp only [hfind]
          injection h with h1 h2
          injection h1 with h1
          subst h1
          refine ⟨_, _, rfl, ?_, ?_, ?_⟩
          · simp [ApprovalGate.recordVote_idem]
          · simp [ApprovalGate.recordVote_idem]
          · intro v
            simp [ApprovalGate.mem_recordVote_self]

/-- Witness for C5: after alice's successful vote the ledger is `["alice"]`;
re-running the call with that ledger succeeds, leaves the ledger at size one
and writes nothing to it. -/
theorem ApprovalGate.approveIssue_duplicate_vote_witness :
    ∃ o2 e2, ApprovalGate.approveIssue
        (some ⟨"10003", some "Ready for Review", some [⟨"alice", "Alice"⟩], none, none⟩)
        ⟨"alice", "Alice"⟩ [⟨"31", some "Approved"⟩] ["alice"] "2026-01-01T00:00:00Z" =
          (.ok o2, e2) ∧
      o2.votes = ["alice"] ∧ o2.votes.length = (["alice"] : List String).length ∧
      ∀ v, ApprovalGate.Effect.putVotes v ∉ e2 :=
  ApprovalGate.approveIssue_duplicate_vote
    (some ⟨"10003", some "Ready for Review", some [⟨"alice", "Alice"⟩], none, none⟩)
    ⟨"alice", "Alice"⟩ [⟨"31", some "Approved"⟩] [] "2026-01-01T00:00:00Z"
    ⟨"Approved by Alice", ["alice"]⟩
    [.executeTransition "31", .writeApprovalFields "2026-01-01T00:00:00Z" "alice",
      .putVotes ["alice"]]
    (by rfl)

namespace SyncController

/-- The local state the client synchronization controller keeps
(`src/Screenshots/frontendFinv1.jsx`, second variant): the cached projection
(`gate`), the error banner text, the in-flight guard, the timestamp of the
last successful fetch and the first-load flag. -/
structure CtrlState where
  gate : Option ApprovalGate.Projection
  error : Option String
  inFlight : Bool
  lastFetchMs : Nat
  initialLoading : Bool
deriving DecidableEq, Repr

/-- `MIN_GAP_MS = 800` (`frontendFinv1.jsx:210`). -/
def MIN_GAP_MS : Nat := 800

/-- What the `invoke('getIssueData', ...)` call returns when it actually runs. -/
inductive FetchOutcome where
  | success (p : ApprovalGate.Projection)
  | failure (msg : String)
deriving DecidableEq, Repr

/-- The `fetchGate` function of the second variant
(`frontendFinv1.jsx:213-230`). `hasIdentity` is `issueKey || issueId`; `now`
is `Date.now()` on entry and `later` the stamp taken after a successful
invocation; `outcome` is what the invocation would produce. Returns the new
state and whether the invocation was performed. The guard draws no
distinction by trigger: every caller, including the user-action refresh in
`onApprove`, goes through the same in-flight and throttle test. -/
def fetchGate (s : CtrlState) (hasIdentity : Bool) (now later : Nat)
    (outcome : FetchOutcome) (isInitial : Bool) : CtrlState × Bool :=
  if !hasIdentity then (s, false)
  else if s.inFlight || decide (now - s.lastFetchMs < MIN_GAP_MS) then (s, false)
  else
    match outcome with
    | .success p =>
      ({ s with
          gate := some p
          error := none
          lastFetchMs := later
          inFlight := false
          initialLoading := if isInitial then false else s.initialLoading }, true)
    | .failure msg =>
      ({ s with
          error := some msg
          inFlight := false
          initialLoading := if isInitial then false else s.initialLoading }, true)

/-- The refresh issued at the end of `onApprove`
(`frontendFinv1.jsx:259-272`): it is `fetchGate(false)` — a plain call with
no throttle bypass for the mutating user action. -/
def onApproveRefresh (s : CtrlState) (hasIdentity : Bool) (now later : Nat)
    (outcome : FetchOutcome) : CtrlState × Bool :=
  fetchGate s hasIdentity now later outcome false

/-- The render guard (`frontendFinv1.jsx:274`): the projection content is
shown unless the view is still in its initial load or has no data. -/
def rendersProjection (s : CtrlState) : Bool :=
  !(s.initialLoading || s.gate.isNone)

/-- The error banner (`frontendFinv1.jsx:278-282`) is rendered inside the
populated view, alongside the projection content. -/
def rendersErrorBanner (s : CtrlState) : Bool :=
  rendersProjection s && s.error.isSome

end SyncController

/-- C6: evaluation at the failing input. A user-action refresh (the one
`onApprove` issues) arriving 50ms after the previous fetch with
`MIN_GAP_MS = 800` is dropped entirely: the `getIssueData` invocation is not
performed and the state is unchanged. The code has no user-action bypass of
the throttle, contrary to the spec. -/
theorem SyncController.userAction_refresh_throttled :
    SyncController.onApproveRefresh
        ⟨some ⟨"Approved", [⟨"alice", "Alice"⟩], 1, 1, true, false, none, none⟩,
          none, false, 1000, false⟩ true 1050 1100
        (.success ⟨"Approved", [⟨"alice", "Alice"⟩], 1, 1, true, false, none, none⟩) =
      (⟨some ⟨"Approved", [⟨"alice", "Alice"⟩], 1, 1, true, false, none, none⟩,
          none, false, 1000, false⟩, false) := by
  rfl

/-- C9: a refresh that executes and fails never blanks an already-populated
view: the error state is set while the cached projection is kept, and the
populated view still renders the projection with the error banner alongside
it; only a successful refresh replaces the cached projection and clears the
error state. -/
theorem SyncController.failed_refresh_keeps_projection
    (s : SyncController.CtrlState) (now later : Nat) (msg : String)
    (p newP : ApprovalGate.Projection)
    (hgate : s.gate = some p) (hload : s.initialLoading = false)
    (hin : s.inFlight = false)
    (hgap : SyncController.MIN_GAP_MS ≤ now - s.lastFetchMs) :
    ((SyncController.fetchGate s true now later (.failure msg) false).1.gate = some p ∧
      (SyncController.fetchGate s true now later (.failure msg) false).1.error = some msg ∧
      SyncController.rendersProjection
        (SyncController.fetchGate s true now later (.failure msg) false).1 = true ∧
      SyncController.rendersErrorBanner
        (SyncController.fetchGate s true now later (.failure msg) false).1 = true) ∧
    ((SyncController.fetchGate s true now later (.success newP) false).1.gate = some newP ∧
      (SyncController.fetchGate s true now later (.success newP) false).1.error = none) := by
  have hb : decide (now - s.lastFetchMs < SyncController.MIN_GAP_MS) = false :=
    decide_eq_false (Nat.not_lt.mpr hgap)
  unfold SyncController.fetchGate
  simp [hin, hb, hgate, hload, SyncController.rendersProjection,
    SyncController.rendersErrorBanner]

/-- Witness for C9 at a concrete populated controller state. -/
theorem SyncController.failed_refresh_keeps_projection_witness :
    ((SyncController.fetchGate
        ⟨some ⟨"Ready for Review", [⟨"alice", "Alice"⟩], 0, 1, false, true, none, none⟩,
          none, false, 0, false⟩
        true 900 950 (.failure "Upstream 500") false).1.gate =
      some ⟨"Ready for Review", [⟨"alice", "Alice"⟩], 0, 1, false, true, none, none⟩ ∧
      (SyncController.fetchGate
        ⟨some ⟨"Ready for Review", [⟨"alice", "Alice"⟩], 0, 1, false, true, none, none⟩,
          none, false, 0, false⟩
        true 900 950 (.failure "Upstream 500") false).1.error = some "Upstream 500" ∧
      SyncController.rendersProjection
        (SyncController.fetchGate
          ⟨some ⟨"Ready for Review", [⟨"alice", "Alice"⟩], 0, 1, false, true, none, none⟩,
            none, false, 0, false⟩
          true 900 950 (.failure "Upstream 500") false).1 = true ∧
      SyncController.rendersErrorBanner
        (SyncController.fetchGate
          ⟨some ⟨"Ready for Review", [⟨"alice", "Alice"⟩], 0, 1, false, true, none, none⟩,
            none, false, 0, false⟩
          true 900 950 (.failure "Upstream 500") false).1 = true) ∧
    ((SyncController.fetchGate
        ⟨some ⟨"Ready for Review", [⟨"alice", "Alice"⟩], 0, 1, false, true, none, none⟩,
          none, false, 0, false⟩
        true 900 950
        (.success ⟨"Approved", [⟨"alice", "Alice"⟩], 1, 1, true, false, none, none⟩)
        false).1.gate =
      some ⟨"Approved", [⟨"alice", "Alice"⟩], 1, 1, true, false, none, none⟩ ∧
      (SyncController.fetchGate
        ⟨some ⟨"Ready for Review", [⟨"alice", "Alice"⟩], 0, 1, false, true, none, none⟩,
          none, false, 0, false⟩
        true 900 950
        (.success ⟨"Approved", [⟨"alice", "Alice"⟩], 1, 1, true, false, none, none⟩)
        false).1.error = none) :=
  SyncController.failed_refresh_keeps_projection
    ⟨some ⟨"Ready for Review", [⟨"alice", "Alice"⟩], 0, 1, false, true, none, none⟩,
      none, false, 0, false⟩
    900 950 "Upstream 500"
    ⟨"Ready for Review", [⟨"alice", "Alice"⟩], 0, 1, false, true, none, none⟩
    ⟨"Approved", [⟨"alice", "Alice"⟩], 1, 1, true, false, none, none⟩
    rfl rfl rfl (by decide)

namespace ApprovalGate

/-- The result reported by `resetApprovalOnReady`. -/
structure ResetResult where
  reset : Bool
  reason : Option String
deriving DecidableEq, Repr

/-- The state `resetApprovalOnReady` acts on: the issue's status, the two
approval annotation fields, and the vote-ledger property. -/
structure ApprovalState where
  statusName : Option String
  approvalDate : Option String
  approvalGivenBy : Option User
  votes : List String
deriving DecidableEq, Repr

/-- The already-clear test of `resetApprovalOnReady`
(`src/unnamed/part_003:165`): `!currentDate && !currentBy && votes.length === 0`,
where `currentDate` collapses the falsy empty string to `null`. -/
def approvalIsClear (s : ApprovalState) : Bool :=
  (jsTruthyString s.approvalDate).isNone && s.approvalGivenBy.isNone &&
    (s.votes.length == 0)

/-- The pure core of the `resetApprovalOnReady` resolver
(`src/unnamed/part_003:151-176`): returns the reported result and the state
after the call. -/
def resetApprovalOnReady (s : ApprovalState) : ResetResult × ApprovalState :=
  let statusName := jsOrString s.statusName "Unknown"
  if statusName != REQUIRED_STATUS then
    ({ reset := false, reason := some ("Status is " ++ statusName) }, s)
  else if approvalIsClear s then
    ({ reset := false, reason := some "Already clear" }, s)
  else
    ({ reset := true, reason := none },
     { s with approvalDate := none, approvalGivenBy := none, votes := [] })

end ApprovalGate

/-- C7: `resetApprovalOnReady` is idempotent. On an item in `REQUIRED_STATUS`
whose annotation fields and ledger are already clear, the call reports
`reset:false` with a reason and leaves the state unchanged, and a second call
reports `reset:false` again; when any of the annotation fields or the ledger
is non-empty, the call clears them and reports `reset:true`, and a second
call on the resulting state reports `reset:false`. -/
theorem ApprovalGate.resetApprovalOnReady_idempotent (s : ApprovalGate.ApprovalState)
    (hstatus : ApprovalGate.jsOrString s.statusName "Unknown" = ApprovalGate.REQUIRED_STATUS) :
    (ApprovalGate.approvalIsClear s = true →
      ApprovalGate.resetApprovalOnReady s =
        ({ reset := false, reason := some "Already clear" }, s) ∧
      ApprovalGate.resetApprovalOnReady (ApprovalGate.resetApprovalOnReady s).2 =
        ({ reset := false, reason := some "Already clear" }, s)) ∧
    (ApprovalGate.approvalIsClear s = false →
      (ApprovalGate.resetApprovalOnReady s).1 = { reset := true, reason := none } ∧
      (ApprovalGate.resetApprovalOnReady s).2 =
        { s with approvalDate := none, approvalGivenBy := none, votes := [] } ∧
      (ApprovalGate.resetApprovalOnReady (ApprovalGate.resetApprovalOnReady s).2).1 =
        { reset := false, reason := some "Already clear" }) := by
  constructor
  · intro hclear
    have h1 : ApprovalGate.resetApprovalOnReady s =
        ({ reset := false, reason := some "Already clear" }, s) := by
      unfold ApprovalGate.resetApprovalOnReady
      simp [hstatus, hclear]
    exact ⟨h1, by rw [h1]; exact h1⟩
  · intro hclear
    have h1 : ApprovalGate.resetApprovalOnReady s =
        ({ reset := true, reason := none },
         { s with approvalDate := none, approvalGivenBy := none, votes := [] }) := by
      unfold ApprovalGate.resetApprovalOnReady
      simp [hstatus, hclear]
    refine ⟨by rw [h1], by rw [h1], ?_⟩
    rw [h1]
    unfold ApprovalGate.resetApprovalOnReady
    simp [hstatus, ApprovalGate.approvalIsClear, ApprovalGate.jsTruthyString]

/-- Witness for C7: both branches at concrete states — an already-clear item
in the required status, and the same item carrying a vote and annotations. -/
theorem ApprovalGate.resetApprovalOnReady_idempotent_witness :
    (ApprovalGate.approvalIsClear
        ⟨some "Ready for Review", none, none, []⟩ = true →
      ApprovalGate.resetApprovalOnReady ⟨some "Ready for Review", none, none, []⟩ =
        ({ reset := false, reason := some "Already clear" },
          ⟨some "Ready for Review", none, none, []⟩) ∧
      ApprovalGate.resetApprovalOnReady
          (ApprovalGate.resetApprovalOnReady
            ⟨some "Ready for Review", none, none, []⟩).2 =
        ({ reset := false, reason := some "Already clear" },
          ⟨some "Ready for Review", none, none, []⟩)) ∧
    (ApprovalGate.approvalIsClear ⟨some "Ready for Review", none, none, []⟩ = false →
      (ApprovalGate.resetApprovalOnReady ⟨some "Ready for Review", none, none, []⟩).1 =
        { reset := true, reason := none } ∧
      (ApprovalGate.resetApprovalOnReady ⟨some "Ready for Review", none, none, []⟩).2 =
        { statusName := some "Ready for Review", approvalDate := none,
            approvalGivenBy := none, votes := ([] : List String) } ∧
      (ApprovalGate.resetApprovalOnReady
          (ApprovalGate.resetApprovalOnReady
            ⟨some "Ready for Review", none, none, []⟩).2).1 =
        { reset := false, reason := some "Already clear" }) :=
  ApprovalGate.resetApprovalOnReady_idempotent
    ⟨some "Ready for Review", none, none, []⟩ rfl

namespace ApprovalGate

/-- The possible responses of the ledger-property GET
(`src/unnamed/part_003:40-46`): a 404, a 2xx whose body's `value` is an
array, a 2xx whose `value` is not an array, or any other non-ok status. -/
inductive PropResponse where
  | notFound
  | okArray (value : List String)
  | okOther
  | err (status : Nat) (body : String)
deriving DecidableEq, Repr

/-- `getIssuePropertyOrEmpty` (`src/unnamed/part_003:40-46`): a 404 yields
the empty list, another non-ok status throws, and a 2xx yields the array
value or the empty list. -/
def getIssuePropertyOrEmpty : PropResponse → Except String (List String)
  | .notFound => .ok []
  | .okArray v => .ok v
  | .okOther => .ok []
  | .err status body =>
    .error ("Property GET failed: " ++ toString status ++ " " ++ body)

/-- `getIssueData` threaded through the ledger read: the projection is built
from whatever ledger the property GET produced. -/
def getIssueDataFromRead (issue : Issue) (me : User) (resp : PropResponse) :
    Except String Projection :=
  (getIssuePropertyOrEmpty resp).map (getIssueData issue me)

/-- `approveIssue` threaded through the ledger read used by its
vote-recording step. -/
def approveIssueFromRead (lookup : Option Issue) (me : User)
    (transitions : List Transition) (resp : PropResponse) (nowIso : String) :
    Except String (Except ApproveError ApproveOutcome × List Effect) :=
  (getIssuePropertyOrEmpty resp).map
    (fun votes => approveIssue lookup me transitions votes nowIso)

end ApprovalGate

/-- C8: a missing vote ledger is read as the empty set, never as an error:
the 404 response makes `getIssuePropertyOrEmpty` succeed with the empty
list, and both `getIssueData` and `approveIssue` proceed exactly as with an
empty ledger, raising no error for that read. -/
theorem ApprovalGate.ledger404_reads_as_empty (issue : ApprovalGate.Issue)
    (me : ApprovalGate.User) (lookup : Option ApprovalGate.Issue)
    (transitions : List ApprovalGate.Transition) (nowIso : String) :
    ApprovalGate.getIssuePropertyOrEmpty .notFound = .ok [] ∧
    ApprovalGate.getIssueDataFromRead issue me .notFound =
      .ok (ApprovalGate.getIssueData issue me []) ∧
    ApprovalGate.approveIssueFromRead lookup me transitions .notFound nowIso =
      .ok (ApprovalGate.approveIssue lookup me transitions [] nowIso) :=
  ⟨rfl, rfl, rfl⟩

namespace Poker

/-- A participant entry after `normalizeParticipants`
(`src/src/resolvers/index.js:9-20`). -/
structure Participant where
  accountId : String
  displayName : String
deriving DecidableEq, Repr

/-- An estimates-map entry `{ displayName, estimate }`. The estimate is the
already-parsed `Number(estimate)`; its numeric type plays no role beyond the
non-negativity guard. -/
structure EstimateEntry where
  displayName : String
  estimate : Int
deriving DecidableEq, Repr

/-- The stored poker state after `normalizeState`
(`src/src/resolvers/index.js:22-32`). The JS `estimates` object is embedded
as an association list keyed by account id, in insertion order. -/
structure PokerState where
  revealed : Bool
  estimates : List (String × EstimateEntry)
  participants : List Participant
deriving DecidableEq, Repr

/-- The JS object spread `{...m, [k]: v}` on an association list with unique
keys: an existing key keeps its position and is overwritten; a new key is
appended. -/
def objSet (m : List (String × EstimateEntry)) (k : String) (v : EstimateEntry) :
    List (String × EstimateEntry) :=
  if m.any (fun kv => kv.1 == k) then
    m.map (fun kv => if kv.1 == k then (k, v) else kv)
  else m ++ [(k, v)]

/-- Key lookup in the estimates object. -/
def objGet (m : List (String × EstimateEntry)) (k : String) : Option EstimateEntry :=
  (m.find? (fun kv => kv.1 == k)).map Prod.snd

/-- The pure core of the `enterEstimate` resolver
(`src/src/resolvers/index.js:44-78`) after the payload-presence checks:
`est` is the parsed `Number(estimate)` (already finite), `existing` the
normalized stored state. -/
def enterEstimate (existing : PokerState) (accountId displayName : String) (est : Int) :
    Except String PokerState :=
  if est < 0 then .error "Estimate must be a non-negative number."
  else if decide (existing.participants.length > 0) &&
      !(existing.participants.any (fun p => p.accountId == accountId)) then
    .error "You are not allowed to participate in this poker session."
  else
    .ok { revealed := false
        , estimates := objSet existing.estimates accountId ⟨displayName, est⟩
        , participants := existing.participants }

lemma find_map_set (m : List (String × EstimateEntry)) (k : String) (v : EstimateEntry)
    (h : m.any (fun kv => kv.1 == k) = true) :
    (m.map (fun kv => if kv.1 == k then (k, v) else kv)).find? (fun kv => kv.1 == k) =
      some (k, v) := by
  induction m with
  | nil => cases h
  | cons kv tl ih =>
    simp only [List.map_cons]
    by_cases hk : (kv.1 == k) = true
    · rw [if_pos hk]
      have hh : ((k, v).1 == k) = true := by simp
      simp only [List.find?, hh]
    · rw [if_neg hk]
      have hkf : (kv.1 == k) = false := by simpa using hk
      simp only [List.find?, hkf]
      apply ih
      simpa [List.any_cons, hk] using h

lemma find_map_set_ne (m : List (String × EstimateEntry)) (k k' : String) (v : EstimateEntry)
    (hne : k' ≠ k) :
    (m.map (fun kv => if kv.1 == k then (k, v) else kv)).find? (fun kv => kv.1 == k') =
      m.find? (fun kv => kv.1 == k') := by
  induction m with
  | nil => rfl
  | cons kv tl ih =>
    simp only [List.map_cons]
    by_cases hk : (kv.1 == k) = true
    · have hkv : kv.1 = k := beq_iff_eq.mp hk
      have h1 : ((k, v).1 == k') = false := beq_eq_false_iff_ne.mpr (Ne.symm hne)
      have h2 : (kv.1 == k') = false := by
        rw [hkv]
        exact beq_eq_false_iff_ne.mpr (Ne.symm hne)
      rw [if_pos hk]
      simp only [List.find?, h1, h2]
      exact ih
    · rw [if_neg hk]
      by_cases hp : (kv.1 == k') = true
      · simp only [List.find?, hp]
      · have hpf : (kv.1 == k') = false := by simpa using hp
        simp only [List.find?, hpf]
        exact ih

lemma objGet_objSet_self (m : List (String × EstimateEntry)) (k : String) (v : EstimateEntry) :
    objGet (objSet m k v) k = some v := by
  unfold objSet objGet
  by_cases h : m.any (fun kv => kv.1 == k) = true
  · rw [if_pos h, find_map_set m k v h]
    rfl
  · rw [if_neg h, List.find?_append]
    have hnone : m.find? (fun kv => kv.1 == k) = none := by
      rw [List.find?_eq_none]
      intro x hx
      exact fun hpx => h (List.any_eq_true.mpr ⟨x, hx, hpx⟩)
    rw [hnone]
    have hh : ((k, v).1 == k) = true := by simp
    simp only [List.find?, hh, Option.none_or, Option.map_some]
    rfl

lemma objGet_objSet_ne (m : List (String × EstimateEntry)) (k k' : String) (v : EstimateEntry)
    (hne : k' ≠ k) :
    objGet (objSet m k v) k' = objGet m k' := by
  unfold objSet objGet
  by_cases h : m.any (fun kv => kv.1 == k) = true
  · rw [if_pos h, find_map_set_ne m k k' v hne]
  · rw [if_neg h, List.find?_append]
    have h1 : ((k, v).1 == k') = false := beq_eq_false_iff_ne.mpr (Ne.symm hne)
    have hlast : ([(k, v)] : List (String × EstimateEntry)).find? (fun kv => kv.1 == k') =
        none := by
      simp only [List.find?, h1]
    rw [hlast]
    cases m.find? (fun kv => kv.1 == k') <;> rfl

end Poker

/-- C10: every accepted `enterEstimate` call produces a state with
`revealed = false` — even when the prior state was revealed — keeps the
participants list unchanged, and replaces the estimates map by the prior map
with the caller's entry added or overwritten: the caller's key now maps to
the new entry and every other key is untouched. -/
theorem Poker.enterEstimate_frame (existing : Poker.PokerState)
    (accountId displayName : String) (est : Int) (s' : Poker.PokerState)
    (h : Poker.enterEstimate existing accountId displayName est = .ok s') :
    s'.revealed = false ∧
    s'.participants = existing.participants ∧
    s'.estimates = Poker.objSet existing.estimates accountId ⟨displayName, est⟩ ∧
    Poker.objGet s'.estimates accountId = some ⟨displayName, est⟩ ∧
    (∀ k, k ≠ accountId →
      Poker.objGet s'.estimates k = Poker.objGet existing.estimates k) := by
  unfold Poker.enterEstimate at h
  by_cases h1 : est < 0
  · rw [if_pos h1] at h
    cases h
  · rw [if_neg h1] at h
    by_cases h2 : (decide (existing.participants.length > 0) &&
        !(existing.participants.any (fun p => p.accountId == accountId))) = true
    · rw [if_pos h2] at h
      cases h
    · rw [if_neg h2] at h
      injection h with h
      subst h
      refine ⟨rfl, rfl, rfl, Poker.objGet_objSet_self _ _ _, ?_⟩
      intro k hk
      exact Poker.objGet_objSet_ne _ _ _ _ hk

/-- Witness for C10: after a reveal, bob's accepted estimate un-reveals the
session, keeps the participants, overwrites nothing of alice's entry and
stores bob's. -/
theorem Poker.enterEstimate_frame_witness :
    (Poker.PokerState.mk false
        [("alice", ⟨"Alice", 5⟩), ("bob", ⟨"Bob", 3⟩)] []).revealed = false ∧
    (Poker.PokerState.mk false
        [("alice", ⟨"Alice", 5⟩), ("bob", ⟨"Bob", 3⟩)] []).participants =
      (Poker.PokerState.mk true [("alice", ⟨"Alice", 5⟩)] []).participants ∧
    (Poker.PokerState.mk false
        [("alice", ⟨"Alice", 5⟩), ("bob", ⟨"Bob", 3⟩)] []).estimates =
      Poker.objSet (Poker.PokerState.mk true [("alice", ⟨"Alice", 5⟩)] []).estimates
        "bob" ⟨"Bob", 3⟩ ∧
    Poker.objGet (Poker.PokerState.mk false
        [("alice", ⟨"Alice", 5⟩), ("bob", ⟨"Bob", 3⟩)] []).estimates "bob" =
      some ⟨"Bob", 3⟩ :=
  by
    have h := Poker.enterEstimate_frame
      (Poker.PokerState.mk true [("alice", ⟨"Alice", 5⟩)] []) "bob" "Bob" 3
      (Poker.PokerState.mk false [("alice", ⟨"Alice", 5⟩), ("bob", ⟨"Bob", 3⟩)] [])
      (by rfl)
    exact ⟨h.1, h.2.1, h.2.2.1, h.2.2.2.1⟩
